import Mathlib

set_option maxHeartbeats 1000000

/-
Verification of the exec-utils execution-lifecycle coordinator
(src/index.ts, src/Error.ts, src/types.ts).

The coordinator is event-driven JavaScript.  We embed it shallowly:
  * a JavaScript value is inspected by the code only through
    `v instanceof Error` (reading `v.message`) or `String(v)`, so values
    are modelled by `JSVal`;
  * the effective cancellation signal (the `AbortController` combined with
    an optional external `AbortSignal` via `AbortSignal.any`) is a
    first-wins latch `Option JSVal` with trigger `triggerAbort`;
  * one execution is a fold of the stream/timer/abort events that the
    process host delivers (`SpawnEvent`) over the mutable state of
    `spawn` (`SpawnState`), followed by one terminal outcome
    (`SpawnTerminal`): either the `close` event with an exit code, or a
    rejection of `once(child, 'close')`;
  * `Buffer`s are byte lists (`List Nat`); `buffer.toString(enc)` is an
    uninterpreted decoding parameter `decode : String -> List Nat -> String`
    threaded through the runners.
-/

namespace ExecUtils

/-- JavaScript runtime value as far as the coordinator inspects one: the
code only asks whether a value is an `Error` (reading its `message`) or
not (possibly stringifying it with `String(v)`). -/
inductive JSVal where
  | errorVal (message : String)
  | otherVal (str : String)
deriving DecidableEq, Repr

/-- Structured error of src/Error.ts: `new ExecUtilsError(message, code)`. -/
structure ExecUtilsError where
  message : String
  code : Int
deriving DecidableEq, Repr

/-- Result shape of src/types.ts (`SpawnResult`), minus the opaque process
handle, which no claim inspects. -/
structure SpawnResult where
  data : Option String
  dataAsBuffer : Option (List Nat)
  error : Option ExecUtilsError
  code : Int
deriving DecidableEq, Repr

/-- First-wins cancellation latch: `AbortController.abort` on an already
aborted controller is a no-op, and `AbortSignal.any` keeps the reason of
whichever source signal aborted first (index.ts lines 13-26). -/
def triggerAbort (latch : Option JSVal) (reason : JSVal) : Option JSVal :=
  match latch with
  | some r => some r
  | none => some reason

/-- Reason installed by the output accumulator (index.ts lines 173 and 182):
`new Error(\x60MaxBuffer size exceeded (\x24{maxBuffer} bytes)\x60)`. -/
def maxBufferReason (maxBuffer : Nat) : JSVal :=
  JSVal.errorVal ("MaxBuffer size exceeded (" ++ toString maxBuffer ++ " bytes)")

/-- Reason installed by the timeout timer (index.ts line 19):
`new Error(\x60Command timed out after \x24{options.timeout}ms\x60)`. -/
def timeoutReason (timeout : Nat) : JSVal :=
  JSVal.errorVal ("Command timed out after " ++ toString timeout ++ "ms")

/-- Input payload variants accepted by the `input` option
(string / Buffer / readable stream). -/
inductive Input where
  | str (s : String)
  | buf (b : List Nat)
  | stream
deriving DecidableEq, Repr

/-- Observable actions of the input feeder on the child and on the
cancellation latch. -/
inductive InputAction where
  | stdinWriteStr (s : String)
  | stdinWriteBuf (b : List Nat)
  | stdinEnd
  | pipeToStdin
  | abortWith (reason : JSVal)
deriving DecidableEq, Repr

/-- Message extraction used in the `catch` of `handleInput`
(index.ts line 54): `err instanceof Error ? err.message : String(err)`. -/
def jsMessageOrString : JSVal → String
  | .errorVal m => m
  | .otherVal s => s

/-- Input feeder (index.ts lines 31-56).  `stdinPresent` models
`child.stdin` being non-null; `syncFailure` models a synchronous exception
raised inside the `try` block (for example the child's stdin already being
closed), carrying the thrown value.  Returns the ordered list of actions
performed and whether an exception escaped the function. -/
def handleInput (stdinPresent : Bool) (input : Option Input)
    (syncFailure : Option JSVal) : List InputAction × Bool :=
  match input, stdinPresent with
  | none, _ => ([], false)
  | some _, false => ([], false)
  | some inp, true =>
    match syncFailure with
    | some e =>
      ([InputAction.stdinEnd,
        InputAction.abortWith
          (JSVal.errorVal ("Failed to write to stdin: " ++ jsMessageOrString e))],
        false)
    | none =>
      match inp with
      | .str s => ([InputAction.stdinWriteStr s, InputAction.stdinEnd], false)
      | .buf b => ([InputAction.stdinWriteBuf b, InputAction.stdinEnd], false)
      | .stream => ([InputAction.pipeToStdin], false)

/-- Handler registered for a stream payload on the source stream's `error`
event (index.ts lines 48-50): abort with an `Error` whose message prefixes
the source error's message with `Input stream error: `. -/
def onInputStreamError (errMessage : String) : List InputAction :=
  [InputAction.abortWith (JSVal.errorVal ("Input stream error: " ++ errMessage))]

/-- Recognized options of the coordinator (src/types.ts `BaseOptions`).
JavaScript truthiness of `options.timeout` and `options.maxBuffer` makes 0
behave as unset, and of `options.encoding` makes the empty string behave
as unset, so those sentinels encode the absent option. -/
structure SpawnOpts where
  timeout : Nat
  maxBuffer : Nat
  encoding : String
  hasSignal : Bool
  input : Option Input
deriving DecidableEq, Repr

/-- Effective ceiling: `options.maxBuffer || 80 * 1024 * 1024` (line 136). -/
def effMaxBuffer (o : SpawnOpts) : Nat :=
  if o.maxBuffer = 0 then 80 * 1024 * 1024 else o.maxBuffer

/-- Effective encoding: `options.encoding || 'utf8'` (line 135). -/
def effEncoding (o : SpawnOpts) : String :=
  if o.encoding = "" then "utf8" else o.encoding

/-- Mutable state of one `spawn` call: the effective signal's latch and the
two output accumulators (index.ts lines 150-153). -/
structure SpawnState where
  latch : Option JSVal
  dataChunks : List (List Nat)
  dataLength : Nat
  errorChunks : List (List Nat)
  errorLength : Nat
deriving DecidableEq, Repr

def initialSpawnState : SpawnState :=
  { latch := none, dataChunks := [], dataLength := 0, errorChunks := [], errorLength := 0 }

/-- stdout `data` handler (index.ts lines 168-175): push the chunk, add its
length, then abort when `dataLength > maxBuffer`.  The appended length is
inlined into the condition, which checks only the stdout count. -/
def onStdoutData (maxBuffer : Nat) (st : SpawnState) (chunk : List Nat) : SpawnState :=
  if st.dataLength + chunk.length > maxBuffer then
    { st with dataChunks := st.dataChunks ++ [chunk], dataLength := st.dataLength + chunk.length, latch := triggerAbort st.latch (maxBufferReason maxBuffer) }
  else
    { st with dataChunks := st.dataChunks ++ [chunk], dataLength := st.dataLength + chunk.length }

/-- stderr `data` handler (index.ts lines 177-184): push the chunk (already
bytes on a default pipe), add its length, then abort when
`dataLength + errorLength > maxBuffer` (the combined count). -/
def onStderrData (maxBuffer : Nat) (st : SpawnState) (chunk : List Nat) : SpawnState :=
  if st.dataLength + (st.errorLength + chunk.length) > maxBuffer then
    { st with errorChunks := st.errorChunks ++ [chunk], errorLength := st.errorLength + chunk.length, latch := triggerAbort st.latch (maxBufferReason maxBuffer) }
  else
    { st with errorChunks := st.errorChunks ++ [chunk], errorLength := st.errorLength + chunk.length }

/-- Events delivered to one `spawn` call while it awaits the close event. -/
inductive SpawnEvent where
  | stdoutData (chunk : List Nat)
  | stderrData (chunk : List Nat)
  | timeoutFire
  | externalAbort (reason : JSVal)
  | inputStreamEnd
  | inputStreamError (message : String)
deriving DecidableEq, Repr

/-- Effect of one event on the state of a `spawn` call.  The timer exists
only when a (truthy) timeout is configured (line 17); the external signal is
combined only when provided (line 23); the stream error listener exists only
for a stream payload (lines 43-50). -/
def stepEvent (o : SpawnOpts) (st : SpawnState) (e : SpawnEvent) : SpawnState :=
  match e with
  | .stdoutData c => onStdoutData (effMaxBuffer o) st c
  | .stderrData c => onStderrData (effMaxBuffer o) st c
  | .timeoutFire =>
    if o.timeout ≠ 0 then
      { st with latch := triggerAbort st.latch (timeoutReason o.timeout) }
    else st
  | .externalAbort r =>
    if o.hasSignal then { st with latch := triggerAbort st.latch r } else st
  | .inputStreamEnd => st
  | .inputStreamError m =>
    if o.input = some Input.stream then
      { st with latch := triggerAbort st.latch (JSVal.errorVal ("Input stream error: " ++ m)) }
    else st

/-- Effect of one input-feeder action on the spawn state: only aborting
touches the coordinator state. -/
def applyInputAction (st : SpawnState) (a : InputAction) : SpawnState :=
  match a with
  | .abortWith r => { st with latch := triggerAbort st.latch r }
  | _ => st

/-- State of a `spawn` call after `handleInput` ran (spawn pipes stdio by
default, so stdin is present) and the given events were delivered. -/
def spawnStateAfter (o : SpawnOpts) (syncFailure : Option JSVal)
    (ev : List SpawnEvent) : SpawnState :=
  ev.foldl (stepEvent o)
    ((handleInput true o.input syncFailure).fst.foldl applyInputAction initialSpawnState)

/-- Node's `Buffer.concat(list, totalLength)`: concatenation truncated, or
zero-filled, to `totalLength`. -/
def bufferConcat (chunks : List (List Nat)) (totalLength : Nat) : List Nat :=
  if totalLength ≤ chunks.flatten.length then chunks.flatten.take totalLength
  else chunks.flatten ++ List.replicate (totalLength - chunks.flatten.length) 0

/-- Result builder for an observed exit code (index.ts lines 61-83).
`decode enc bytes` stands for `Buffer.toString(enc)`. -/
def createResult (decode : String → List Nat → String) (code : Int)
    (dataChunks : List (List Nat)) (dataLength : Nat)
    (errorChunks : List (List Nat)) (errorLength : Nat)
    (encoding : String) : SpawnResult :=
  if code = 0 then
    { data := some (decode encoding (bufferConcat dataChunks dataLength)),
      dataAsBuffer := some (bufferConcat dataChunks dataLength),
      error := none,
      code := code }
  else
    { data := none,
      dataAsBuffer := none,
      error := some { message := decode "utf8" (bufferConcat errorChunks errorLength),
                      code := code },
      code := code }

/-- Result builder for a failed execution (index.ts lines 88-101).
`signalState` is the effective signal: `none` when not aborted, `some v`
when aborted with reason `v`. -/
def createErrorResult (err : JSVal) (signalState : Option JSVal) : SpawnResult :=
  let execError : ExecUtilsError :=
    match err with
    | .errorVal m => { message := m, code := -1 }
    | .otherVal _ => { message := "Unknown error occurred", code := -1 }
  let execError : ExecUtilsError :=
    match signalState with
    | some (.errorVal m) => { message := m, code := -1 }
    | some (.otherVal _) => { message := "Operation aborted", code := -1 }
    | none => execError
  { data := none, dataAsBuffer := none, error := some execError, code := -1 }

/-- Terminal outcome of `await once(child, 'close')` (index.ts line 187):
the close event with the exit code, or a rejection (for example the
`error` event of a program that could not be launched). -/
inductive SpawnTerminal where
  | closed (code : Int)
  | threw (err : JSVal)
deriving DecidableEq, Repr

/-- Tail of `spawn` (index.ts lines 186-198): on close, rethrow the abort
reason if the effective signal aborted, otherwise build the clean result;
every caught value goes through `createErrorResult`. -/
def finishSpawn (decode : String → List Nat → String) (encoding : String)
    (st : SpawnState) (t : SpawnTerminal) : SpawnResult :=
  match t with
  | .closed code =>
    match st.latch with
    | some reason => createErrorResult reason (some reason)
    | none =>
      createResult decode code st.dataChunks st.dataLength st.errorChunks
        st.errorLength encoding
  | .threw err => createErrorResult err st.latch

/-- The `spawn` runner (index.ts lines 134-199) as a function of the
delivered events and terminal outcome. -/
def spawn (o : SpawnOpts) (decode : String → List Nat → String)
    (syncFailure : Option JSVal) (ev : List SpawnEvent)
    (t : SpawnTerminal) : SpawnResult :=
  finishSpawn decode (effEncoding o) (spawnStateAfter o syncFailure ev) t

/-- Terminal outcome of the promisified `childProcess.exec` used by the
no-input branch of `exec`: resolution with the buffered stdout bytes
(encoding is forced to `'buffer'`), or rejection. -/
inductive ExecTerminal where
  | resolved (stdout : List Nat)
  | rejected (err : JSVal)
deriving DecidableEq, Repr

/-- Latch transitions available in the no-input branch of `exec`: only the
timeout timer and the external signal exist there (no output accumulator,
no input feeder). -/
def execStep (o : SpawnOpts) (latch : Option JSVal) (e : SpawnEvent) : Option JSVal :=
  match e with
  | .timeoutFire =>
    if o.timeout ≠ 0 then triggerAbort latch (timeoutReason o.timeout) else latch
  | .externalAbort r => if o.hasSignal then triggerAbort latch r else latch
  | _ => latch

/-- The `exec` runner (index.ts lines 234-288): with an input payload it
delegates to `spawn` (of `sh -c`), otherwise it awaits the buffering host
and wraps its outcome, rethrowing the abort reason when cancelled. -/
def exec (o : SpawnOpts) (decode : String → List Nat → String)
    (syncFailure : Option JSVal) (ev : List SpawnEvent)
    (spawnTerm : SpawnTerminal) (execTerm : ExecTerminal) : SpawnResult :=
  match o.input with
  | some _ => spawn o decode syncFailure ev spawnTerm
  | none =>
    match execTerm with
    | .resolved stdout =>
      match ev.foldl (execStep o) none with
      | some reason => createErrorResult reason (some reason)
      | none =>
        { data := some (decode (effEncoding o) stdout),
          dataAsBuffer := some stdout,
          error := none,
          code := 0 }
    | .rejected err => createErrorResult err (ev.foldl (execStep o) none)

/-- Functional deletion of a key, modelling `delete obj.key` on the object
map. -/
def deleteKey {α : Type} (o : String → Option α) (k : String) :
    String → Option α :=
  fun k2 => if k2 = k then none else o k2

/-- Functional insertion of a key, modelling `key: value` inside an object
literal. -/
def setKey {α : Type} (o : String → Option α) (k : String) (v : α) :
    String → Option α :=
  fun k2 => if k2 = k then some v else o k2

/-- Option plumbing of `spawn` (index.ts lines 140-146): copy the caller's
object (`{ ...options }`), delete the recognized options from the copy, and
hand the copy to `childProcess.spawn`.  The pair is (caller's object as it
stands after the call, object handed to the host). -/
def spawnOptionsPrep {α : Type} (options : String → Option α) :
    (String → Option α) × (String → Option α) :=
  let spawnOptions := options
  let spawnOptions := deleteKey spawnOptions ("timeout")
  let spawnOptions := deleteKey spawnOptions ("maxBuffer")
  let spawnOptions := deleteKey spawnOptions ("encoding")
  let spawnOptions := deleteKey spawnOptions ("input")
  (options, spawnOptions)

/-- Option plumbing of the no-input branch of `exec` (index.ts lines
247-249): `{ ...options, encoding: 'buffer', maxBuffer }` then delete
`timeout` and `signal` from the copy. -/
def execOptionsPrep {α : Type} (options : String → Option α)
    (bufferEncoding maxBufferVal : α) :
    (String → Option α) × (String → Option α) :=
  let execOptions := setKey (setKey options ("encoding") bufferEncoding)
    ("maxBuffer") maxBufferVal
  let execOptions := deleteKey execOptions ("timeout")
  let execOptions := deleteKey execOptions ("signal")
  (options, execOptions)

/-- Option plumbing of the input branch of `exec` (index.ts lines 239-242):
`{ ...options, shell: true }`. -/
def execDelegateOptionsPrep {α : Type} (options : String → Option α)
    (shellVal : α) : (String → Option α) × (String → Option α) :=
  (options, setKey options ("shell") shellVal)

/-- Success variant: data fields populated, no error. -/
def isSuccessResult (r : SpawnResult) : Prop :=
  r.data ≠ none ∧ r.dataAsBuffer ≠ none ∧ r.error = none

/-- Failure variant: data fields null, error populated. -/
def isFailureResult (r : SpawnResult) : Prop :=
  r.data = none ∧ r.dataAsBuffer = none ∧ r.error ≠ none

/-- A result is exactly one of the two variants. -/
def exactlyOneVariant (r : SpawnResult) : Prop :=
  (isSuccessResult r ∧ ¬ isFailureResult r) ∨ (isFailureResult r ∧ ¬ isSuccessResult r)

/-- Modelled from the spec (section 4.4, abnormal path): the error message
the spec prescribes for an abnormal completion, as a function of the
recorded cancellation state and the thrown/rejected value (if any).  Used
to compare the code's behaviour against the spec's words; the
uncancelled-and-nothing-thrown case is unreachable on abnormal paths. -/
def specAbnormalErrorMessage (latch : Option JSVal) (thrown : Option JSVal) : String :=
  match latch with
  | some (.errorVal m) => m
  | some (.otherVal _) => "Operation aborted"
  | none =>
    match thrown with
    | some (.errorVal m) => m
    | some (.otherVal _) => "Unknown error occurred"
    | none => ""

/-- Value thrown at the terminal outcome of a spawn call: the rejection
value of the awaited close, if any. -/
def terminalThrown : SpawnTerminal → Option JSVal
  | .threw e => some e
  | .closed _ => none

/-- ASCII decoding used to instantiate the abstract `decode` parameter in
concrete witnesses. -/
def asciiDecode (bs : List Nat) : String :=
  String.mk (bs.map Char.ofNat)

def decA : String → List Nat → String := fun _ bs => asciiDecode bs

/-- Default options: everything unset. -/
def opts0 : SpawnOpts :=
  { timeout := 0, maxBuffer := 0, encoding := "", hasSignal := false, input := none }

/-- Options with a ceiling of 80 bytes. -/
def opts80 : SpawnOpts :=
  { timeout := 0, maxBuffer := 80, encoding := "", hasSignal := false, input := none }

/-- Options with a 5000 ms timeout. -/
def optsT : SpawnOpts :=
  { timeout := 5000, maxBuffer := 0, encoding := "", hasSignal := false, input := none }

/-- Thirty bytes. -/
def c30 : List Nat := List.replicate 30 1

/-! Helper lemmas about the cancellation latch and the accumulator. -/

theorem triggerAbort_ne_none (l : Option JSVal) (r : JSVal) : triggerAbort l r ≠ none := by
  cases l <;> simp [triggerAbort]

theorem applyInputAction_latch_some (st : SpawnState) (a : InputAction) (r : JSVal)
    (h : st.latch = some r) : (applyInputAction st a).latch = some r := by
  cases a <;> simp [applyInputAction, triggerAbort, h]

theorem foldl_applyInputAction_latch_some (acts : List InputAction) :
    ∀ (st : SpawnState) (r : JSVal), st.latch = some r →
      (acts.foldl applyInputAction st).latch = some r := by
  induction acts with
  | nil => intro st r h; simpa using h
  | cons a tl ih =>
    intro st r h
    simp only [List.foldl_cons]
    exact ih _ r (applyInputAction_latch_some st a r h)

theorem stepEvent_latch_some (o : SpawnOpts) (st : SpawnState) (e : SpawnEvent) (r : JSVal)
    (h : st.latch = some r) : (stepEvent o st e).latch = some r := by
  cases e with
  | stdoutData c =>
    simp only [stepEvent, onStdoutData]
    split <;> simp [triggerAbort, h]
  | stderrData c =>
    simp only [stepEvent, onStderrData]
    split <;> simp [triggerAbort, h]
  | timeoutFire =>
    simp only [stepEvent]
    split <;> simp [triggerAbort, h]
  | externalAbort r2 =>
    simp only [stepEvent]
    split <;> simp [triggerAbort, h]
  | inputStreamEnd => simpa [stepEvent] using h
  | inputStreamError m =>
    simp only [stepEvent]
    split <;> simp [triggerAbort, h]

theorem foldl_stepEvent_latch_some (o : SpawnOpts) (ev : List SpawnEvent) :
    ∀ (st : SpawnState) (r : JSVal), st.latch = some r →
      (ev.foldl (stepEvent o) st).latch = some r := by
  induction ev with
  | nil => intro st r h; simpa using h
  | cons e tl ih =>
    intro st r h
    simp only [List.foldl_cons]
    exact ih _ r (stepEvent_latch_some o st e r h)

theorem execStep_latch_some (o : SpawnOpts) (l : Option JSVal) (e : SpawnEvent) (r : JSVal)
    (h : l = some r) : execStep o l e = some r := by
  cases e <;> simp [execStep, triggerAbort, h]

theorem foldl_execStep_latch_some (o : SpawnOpts) (ev : List SpawnEvent) :
    ∀ (l : Option JSVal) (r : JSVal), l = some r →
      ev.foldl (execStep o) l = some r := by
  induction ev with
  | nil => intro l r h; simpa using h
  | cons e tl ih =>
    intro l r h
    simp only [List.foldl_cons]
    exact ih _ r (execStep_latch_some o l e r h)

/-- Un-cancelled states respect the per-stream bounds the code actually
enforces. -/
def InvP (o : SpawnOpts) (st : SpawnState) : Prop :=
  st.latch = none → st.dataLength ≤ effMaxBuffer o ∧ st.errorLength ≤ effMaxBuffer o

theorem stepEvent_inv (o : SpawnOpts) (st : SpawnState) (e : SpawnEvent)
    (h : InvP o st) : InvP o (stepEvent o st e) := by
  cases e with
  | stdoutData c =>
    by_cases hc : st.dataLength + c.length > effMaxBuffer o
    · intro hn
      simp only [stepEvent, onStdoutData, if_pos hc] at hn
      exact absurd hn (triggerAbort_ne_none _ _)
    · intro hn
      simp only [stepEvent, onStdoutData, if_neg hc] at hn ⊢
      have hb := h hn
      exact ⟨by omega, hb.2⟩
  | stderrData c =>
    by_cases hc : st.dataLength + (st.errorLength + c.length) > effMaxBuffer o
    · intro hn
      simp only [stepEvent, onStderrData, if_pos hc] at hn
      exact absurd hn (triggerAbort_ne_none _ _)
    · intro hn
      simp only [stepEvent, onStderrData, if_neg hc] at hn ⊢
      have hb := h hn
      exact ⟨hb.1, by omega⟩
  | timeoutFire =>
    by_cases hc : o.timeout ≠ 0
    · intro hn
      simp only [stepEvent, if_pos hc] at hn
      exact absurd hn (triggerAbort_ne_none _ _)
    · intro hn
      simp only [stepEvent, if_neg hc] at hn ⊢
      exact h hn
  | externalAbort r =>
    by_cases hc : o.hasSignal = true
    · intro hn
      simp only [stepEvent, if_pos hc] at hn
      exact absurd hn (triggerAbort_ne_none _ _)
    · intro hn
      simp only [stepEvent, if_neg hc] at hn ⊢
      exact h hn
  | inputStreamEnd => exact h
  | inputStreamError m =>
    by_cases hc : o.input = some Input.stream
    · intro hn
      simp only [stepEvent, if_pos hc] at hn
      exact absurd hn (triggerAbort_ne_none _ _)
    · intro hn
      simp only [stepEvent, if_neg hc] at hn ⊢
      exact h hn

theorem foldl_stepEvent_inv (o : SpawnOpts) (ev : List SpawnEvent) :
    ∀ st : SpawnState, InvP o st → InvP o (ev.foldl (stepEvent o) st) := by
  induction ev with
  | nil => intro st h; simpa using h
  | cons e tl ih =>
    intro st h
    simp only [List.foldl_cons]
    exact ih _ (stepEvent_inv o st e h)

theorem applyInputAction_lengths (st : SpawnState) (a : InputAction) :
    (applyInputAction st a).dataLength = st.dataLength ∧
    (applyInputAction st a).errorLength = st.errorLength := by
  cases a <;> simp [applyInputAction]

theorem foldl_applyInputAction_lengths (acts : List InputAction) :
    ∀ st : SpawnState,
      (acts.foldl applyInputAction st).dataLength = st.dataLength ∧
      (acts.foldl applyInputAction st).errorLength = st.errorLength := by
  induction acts with
  | nil => intro st; simp
  | cons a tl ih =>
    intro st
    simp only [List.foldl_cons]
    have h1 := applyInputAction_lengths st a
    have h2 := ih (applyInputAction st a)
    exact ⟨h2.1.trans h1.1, h2.2.trans h1.2⟩

theorem spawnStateAfter_inv (o : SpawnOpts) (sf : Option JSVal) (ev : List SpawnEvent)
    (hl : (spawnStateAfter o sf ev).latch = none) :
    (spawnStateAfter o sf ev).dataLength ≤ effMaxBuffer o ∧
    (spawnStateAfter o sf ev).errorLength ≤ effMaxBuffer o := by
  have h0 : InvP o ((handleInput true o.input sf).fst.foldl applyInputAction initialSpawnState) := by
    intro _
    have hlen := foldl_applyInputAction_lengths (handleInput true o.input sf).fst initialSpawnState
    rw [hlen.1, hlen.2]
    simp [initialSpawnState]
  exact foldl_stepEvent_inv o ev _ h0 hl

theorem spawnStateAfter_append (o : SpawnOpts) (sf : Option JSVal)
    (l1 l2 : List SpawnEvent) :
    spawnStateAfter o sf (l1 ++ l2) =
      l2.foldl (stepEvent o) (spawnStateAfter o sf l1) := by
  simp [spawnStateAfter, List.foldl_append]

/-! Helper lemmas about the two result shapes. -/

theorem failure_not_success (r : SpawnResult) (h : isFailureResult r) :
    ¬ isSuccessResult r := fun hs => hs.1 h.1

theorem success_not_failure (r : SpawnResult) (h : isSuccessResult r) :
    ¬ isFailureResult r := fun hf => h.1 hf.1

theorem createErrorResult_isFailure (e : JSVal) (s : Option JSVal) :
    isFailureResult (createErrorResult e s) := by
  simp [isFailureResult, createErrorResult]

theorem createResult_variant (d : String → List Nat → String) (code : Int)
    (dc : List (List Nat)) (dl : Nat) (ec : List (List Nat)) (el : Nat)
    (enc : String) : exactlyOneVariant (createResult d code dc dl ec el enc) := by
  by_cases h : code = 0
  · left
    constructor
    · simp [isSuccessResult, createResult, h]
    · simp [isFailureResult, createResult, h]
  · right
    constructor
    · simp [isFailureResult, createResult, h]
    · simp [isSuccessResult, createResult, h]

theorem spawn_variant (o : SpawnOpts) (d : String → List Nat → String)
    (sf : Option JSVal) (ev : List SpawnEvent) (t : SpawnTerminal) :
    exactlyOneVariant (spawn o d sf ev t) := by
  unfold spawn finishSpawn
  cases t with
  | closed n =>
    rcases hl : (spawnStateAfter o sf ev).latch with _ | r
    · exact createResult_variant d n _ _ _ _ _
    · right
      exact ⟨createErrorResult_isFailure r (some r),
        failure_not_success _ (createErrorResult_isFailure r (some r))⟩
  | threw e =>
    right
    exact ⟨createErrorResult_isFailure e _,
      failure_not_success _ (createErrorResult_isFailure e _)⟩

theorem exec_variant (o : SpawnOpts) (d : String → List Nat → String)
    (sf : Option JSVal) (ev : List SpawnEvent) (st : SpawnTerminal)
    (et : ExecTerminal) : exactlyOneVariant (exec o d sf ev st et) := by
  unfold exec
  rcases hi : o.input with _ | i
  · cases et with
    | resolved b =>
      rcases hl : ev.foldl (execStep o) none with _ | r
      · left
        have hsucc : isSuccessResult
            { data := some (d (effEncoding o) b), dataAsBuffer := some b,
              error := none, code := 0 } := ⟨by simp, by simp, rfl⟩
        exact ⟨hsucc, success_not_failure _ hsucc⟩
      · right
        exact ⟨createErrorResult_isFailure r (some r),
          failure_not_success _ (createErrorResult_isFailure r (some r))⟩
    | rejected e =>
      right
      exact ⟨createErrorResult_isFailure e _,
        failure_not_success _ (createErrorResult_isFailure e _)⟩
  · exact spawn_variant o d sf ev st

/-! Claim theorems. -/

/-- Claim C1 (counterexample): the claim states that after a chunk is
appended to either buffer, cancellation is triggered whenever the combined
byte count of both buffers exceeds the ceiling, the check firing on stdout
and stderr chunks alike, so that the sum never exceeds the ceiling by more
than the crossing chunk.  In the code the stdout handler checks only the
stdout count, so with a ceiling of 80 bytes the trace stderr 30, stderr 30,
stdout 30, stdout 30 reaches a combined count of 120 bytes with no
cancellation triggered, exceeding the ceiling by 40 bytes, more than any
single 30-byte chunk. -/
theorem buffer_ceiling_claim_counterexample :
    (spawnStateAfter opts80 none
        [SpawnEvent.stderrData c30, SpawnEvent.stderrData c30,
          SpawnEvent.stdoutData c30, SpawnEvent.stdoutData c30]).latch = none ∧
    (spawnStateAfter opts80 none
        [SpawnEvent.stderrData c30, SpawnEvent.stderrData c30,
          SpawnEvent.stdoutData c30, SpawnEvent.stdoutData c30]).dataLength +
      (spawnStateAfter opts80 none
          [SpawnEvent.stderrData c30, SpawnEvent.stderrData c30,
            SpawnEvent.stdoutData c30, SpawnEvent.stdoutData c30]).errorLength = 120 ∧
    effMaxBuffer opts80 = 80 ∧ 80 + 30 < 120 := by
  refine ⟨by decide, by decide, by decide, by decide⟩

/-- Claim C1 (amended): after appending a stdout chunk, cancellation is
triggered with reason MaxBuffer size exceeded (ceiling bytes) exactly when
the stdout byte count alone exceeds the ceiling; after appending a stderr
chunk, exactly when the combined byte count of both buffers exceeds the
ceiling.  Consequently, while cancellation has not been triggered, each
buffer count is at most the ceiling, and the stdout count never exceeds the
ceiling by more than the single chunk that crossed it. -/
theorem buffer_ceiling_soft_bound_amended (o : SpawnOpts) (sf : Option JSVal)
    (ev : List SpawnEvent) (c : List Nat)
    (hl : (spawnStateAfter o sf ev).latch = none) :
    ((spawnStateAfter o sf ev).dataLength ≤ effMaxBuffer o ∧
      (spawnStateAfter o sf ev).errorLength ≤ effMaxBuffer o) ∧
    ((onStdoutData (effMaxBuffer o) (spawnStateAfter o sf ev) c).latch =
        some (maxBufferReason (effMaxBuffer o)) ↔
      (spawnStateAfter o sf ev).dataLength + c.length > effMaxBuffer o) ∧
    (onStdoutData (effMaxBuffer o) (spawnStateAfter o sf ev) c).dataLength ≤
      effMaxBuffer o + c.length ∧
    ((onStderrData (effMaxBuffer o) (spawnStateAfter o sf ev) c).latch =
        some (maxBufferReason (effMaxBuffer o)) ↔
      (spawnStateAfter o sf ev).dataLength +
        ((spawnStateAfter o sf ev).errorLength + c.length) > effMaxBuffer o) := by
  have hinv := spawnStateAfter_inv o sf ev hl
  refine ⟨hinv, ?_, ?_, ?_⟩
  · by_cases hc : (spawnStateAfter o sf ev).dataLength + c.length > effMaxBuffer o
    · simp only [onStdoutData, if_pos hc, hl, triggerAbort]
      exact iff_of_true trivial hc
    · simp only [onStdoutData, if_neg hc, hl]
      exact iff_of_false (by simp) hc
  · have h1 := hinv.1
    by_cases hc : (spawnStateAfter o sf ev).dataLength + c.length > effMaxBuffer o
    · simp only [onStdoutData, if_pos hc]
      omega
    · simp only [onStdoutData, if_neg hc]
      omega
  · by_cases hc : (spawnStateAfter o sf ev).dataLength +
        ((spawnStateAfter o sf ev).errorLength + c.length) > effMaxBuffer o
    · simp only [onStderrData, if_pos hc, hl, triggerAbort]
      exact iff_of_true trivial hc
    · simp only [onStderrData, if_neg hc, hl]
      exact iff_of_false (by simp) hc

theorem buffer_ceiling_soft_bound_amended_witness :
    (spawnStateAfter opts80 none [SpawnEvent.stderrData c30]).latch = none ∧
    ((spawnStateAfter opts80 none [SpawnEvent.stderrData c30]).dataLength ≤ effMaxBuffer opts80 ∧
      (spawnStateAfter opts80 none [SpawnEvent.stderrData c30]).errorLength ≤ effMaxBuffer opts80) :=
  ⟨by decide,
    (buffer_ceiling_soft_bound_amended opts80 none [SpawnEvent.stderrData c30] c30 (by decide)).1⟩

/-- Claim C2: every invocation of spawn and of exec resolves with a result
value that is one of the two variants, and every error path — a rejection
of the awaited close event (for example the launch of a program that does
not exist) for spawn, a rejection of the buffering host for exec's
no-input branch — is recovered inside the core and converted into the
failure variant; nothing is thrown across the public boundary (both
runners are total functions of the execution outcome, built solely from
createResult, createErrorResult and the success record). -/
theorem spawn_exec_never_throw (o : SpawnOpts) (d : String → List Nat → String)
    (sf : Option JSVal) (ev : List SpawnEvent) (t : SpawnTerminal) (e : JSVal)
    (o2 : SpawnOpts) (d2 : String → List Nat → String) (sf2 : Option JSVal)
    (ev2 : List SpawnEvent) (st2 : SpawnTerminal) (et2 : ExecTerminal) (e2 : JSVal) :
    isFailureResult (spawn o d sf ev (SpawnTerminal.threw e)) ∧
    (isSuccessResult (spawn o d sf ev t) ∨ isFailureResult (spawn o d sf ev t)) ∧
    (o2.input = none → isFailureResult (exec o2 d2 sf2 ev2 st2 (ExecTerminal.rejected e2))) ∧
    (isSuccessResult (exec o2 d2 sf2 ev2 st2 et2) ∨ isFailureResult (exec o2 d2 sf2 ev2 st2 et2)) := by
  refine ⟨?_, ?_, ?_, ?_⟩
  · unfold spawn finishSpawn
    exact createErrorResult_isFailure e _
  · rcases spawn_variant o d sf ev t with ⟨hs, _⟩ | ⟨hf, _⟩
    · exact Or.inl hs
    · exact Or.inr hf
  · intro hi
    unfold exec
    rw [hi]
    exact createErrorResult_isFailure e2 _
  · rcases exec_variant o2 d2 sf2 ev2 st2 et2 with ⟨hs, _⟩ | ⟨hf, _⟩
    · exact Or.inl hs
    · exact Or.inr hf

theorem spawn_exec_never_throw_witness :
    isFailureResult (spawn opts0 decA none []
      (SpawnTerminal.threw (JSVal.errorVal ("spawn this-command-does-not-exist ENOENT")))) ∧
    isFailureResult (exec opts0 decA none [] (SpawnTerminal.closed 0)
      (ExecTerminal.rejected (JSVal.errorVal ("boom")))) :=
  ⟨(spawn_exec_never_throw opts0 decA none [] (SpawnTerminal.closed 0)
      (JSVal.errorVal ("spawn this-command-does-not-exist ENOENT")) opts0 decA none []
      (SpawnTerminal.closed 0) (ExecTerminal.rejected (JSVal.errorVal ("boom")))
      (JSVal.errorVal ("boom"))).1,
    (spawn_exec_never_throw opts0 decA none [] (SpawnTerminal.closed 0)
      (JSVal.errorVal ("spawn this-command-does-not-exist ENOENT")) opts0 decA none []
      (SpawnTerminal.closed 0) (ExecTerminal.rejected (JSVal.errorVal ("boom")))
      (JSVal.errorVal ("boom"))).2.2.1 rfl⟩

/-- Claim C3: when the close event delivers exit code n and the effective
signal has not fired, exit code 0 yields the success variant whose data is
the concatenated stdout buffer decoded with the configured encoding and
whose dataAsBuffer is those raw bytes; a nonzero exit code n yields the
failure variant whose error message is the concatenated stderr buffer
decoded as UTF-8, used verbatim, with error code n (exit code 7 with
stderr "boom" yielding error code 7 and message "boom" is the witness). -/
theorem clean_exit_result (o : SpawnOpts) (d : String → List Nat → String)
    (sf : Option JSVal) (ev : List SpawnEvent) (n : Int)
    (hl : (spawnStateAfter o sf ev).latch = none) :
    (n = 0 →
      spawn o d sf ev (SpawnTerminal.closed n) =
        { data := some (d (effEncoding o) (bufferConcat (spawnStateAfter o sf ev).dataChunks (spawnStateAfter o sf ev).dataLength)),
          dataAsBuffer := some (bufferConcat (spawnStateAfter o sf ev).dataChunks (spawnStateAfter o sf ev).dataLength),
          error := none, code := 0 }) ∧
    (n ≠ 0 →
      spawn o d sf ev (SpawnTerminal.closed n) =
        { data := none, dataAsBuffer := none,
          error := some { message := d ("utf8") (bufferConcat (spawnStateAfter o sf ev).errorChunks (spawnStateAfter o sf ev).errorLength), code := n },
          code := n }) := by
  constructor
  · intro h0
    subst h0
    simp [spawn, finishSpawn, hl, createResult]
  · intro hn
    simp [spawn, finishSpawn, hl, createResult, hn]

theorem clean_exit_result_witness :
    spawn opts0 decA none [SpawnEvent.stderrData [98, 111, 111, 109]]
        (SpawnTerminal.closed 7) =
      { data := none, dataAsBuffer := none,
        error := some { message := "boom", code := 7 }, code := 7 } := by
  have h := (clean_exit_result opts0 decA none
    [SpawnEvent.stderrData [98, 111, 111, 109]] 7 (by decide)).2 (by decide)
  rw [h]
  decide

/-- Claim C4: every abnormal completion of either runner produces the
failure variant with result code -1 and error code -1, the message
following the priority rule the spec states (captured by
specAbnormalErrorMessage): the recorded cancellation reason's message
first, defaulting to "Operation aborted" when the reason is not an Error
carrying a message, taking priority over any thrown error; otherwise the
thrown error's message, or "Unknown error occurred" when the thrown value
carries no message.  The conjuncts cover spawn's abnormal paths (close
rejected, or signal fired), exec's no-input branch when the buffering host
rejects (e.g. on nonzero exit), and exec's no-input branch when it
resolves but the signal had fired; exec with input delegates to spawn. -/
theorem abnormal_path_error_result (o : SpawnOpts) (d : String → List Nat → String)
    (sf : Option JSVal) (ev : List SpawnEvent) (t : SpawnTerminal)
    (o2 : SpawnOpts) (d2 : String → List Nat → String) (sf2 : Option JSVal)
    (ev2 : List SpawnEvent) (st2 : SpawnTerminal) (e2 : JSVal) (b2 : List Nat)
    (r2 : JSVal)
    (h : (∃ e, t = SpawnTerminal.threw e) ∨ (spawnStateAfter o sf ev).latch ≠ none) :
    spawn o d sf ev t =
      { data := none, dataAsBuffer := none,
        error := some { message := specAbnormalErrorMessage (spawnStateAfter o sf ev).latch (terminalThrown t), code := -1 },
        code := -1 } ∧
    (o2.input = none →
      exec o2 d2 sf2 ev2 st2 (ExecTerminal.rejected e2) =
        { data := none, dataAsBuffer := none,
          error := some { message := specAbnormalErrorMessage (ev2.foldl (execStep o2) none) (some e2), code := -1 },
          code := -1 }) ∧
    (o2.input = none → ev2.foldl (execStep o2) none = some r2 →
      exec o2 d2 sf2 ev2 st2 (ExecTerminal.resolved b2) =
        { data := none, dataAsBuffer := none,
          error := some { message := specAbnormalErrorMessage (some r2) none, code := -1 },
          code := -1 }) := by
  refine ⟨?_, ?_, ?_⟩
  · cases t with
    | closed n =>
      rcases h with ⟨e, he⟩ | hnl
      · exact absurd he (by simp)
      · rcases hl : (spawnStateAfter o sf ev).latch with _ | r
        · exact absurd hl hnl
        · cases r <;>
            simp [spawn, finishSpawn, hl, createErrorResult, specAbnormalErrorMessage,
              terminalThrown]
    | threw e =>
      rcases hl : (spawnStateAfter o sf ev).latch with _ | r
      · cases e <;>
          simp [spawn, finishSpawn, hl, createErrorResult, specAbnormalErrorMessage,
            terminalThrown]
      · cases r <;> cases e <;>
          simp [spawn, finishSpawn, hl, createErrorResult, specAbnormalErrorMessage,
            terminalThrown]
  · intro hi2
    unfold exec
    rw [hi2]
    rcases hl2 : ev2.foldl (execStep o2) none with _ | r
    · cases e2 <;>
        simp [createErrorResult, specAbnormalErrorMessage]
    · cases r <;> cases e2 <;>
        simp [createErrorResult, specAbnormalErrorMessage]
  · intro hi2 hl2
    unfold exec
    rw [hi2, hl2]
    cases r2 <;>
      simp [createErrorResult, specAbnormalErrorMessage]

theorem abnormal_path_error_result_witness :
    spawn opts0 decA none [] (SpawnTerminal.threw (JSVal.otherVal ("oops"))) =
      { data := none, dataAsBuffer := none,
        error := some { message := "Unknown error occurred", code := -1 }, code := -1 } ∧
    exec opts0 decA none [] (SpawnTerminal.closed 0)
        (ExecTerminal.rejected (JSVal.errorVal ("Command failed: exit 2"))) =
      { data := none, dataAsBuffer := none,
        error := some { message := "Command failed: exit 2", code := -1 }, code := -1 } ∧
    exec optsT decA none [SpawnEvent.timeoutFire] (SpawnTerminal.closed 0)
        (ExecTerminal.resolved []) =
      { data := none, dataAsBuffer := none,
        error := some { message := "Command timed out after 5000ms", code := -1 }, code := -1 } := by
  have hs := abnormal_path_error_result opts0 decA none []
    (SpawnTerminal.threw (JSVal.otherVal ("oops"))) opts0 decA none []
    (SpawnTerminal.closed 0) (JSVal.errorVal ("Command failed: exit 2")) []
    (timeoutReason 5000) (Or.inl ⟨_, rfl⟩)
  have ht := abnormal_path_error_result opts0 decA none []
    (SpawnTerminal.threw (JSVal.otherVal ("oops"))) optsT decA none
    [SpawnEvent.timeoutFire] (SpawnTerminal.closed 0)
    (JSVal.errorVal ("Command failed: exit 2")) [] (timeoutReason 5000)
    (Or.inl ⟨_, rfl⟩)
  refine ⟨?_, ?_, ?_⟩
  · rw [hs.1]
    decide
  · rw [hs.2.1 rfl]
    decide
  · rw [ht.2.2 rfl (by decide)]
    decide

/-- Claim C5: every result returned by spawn or exec is exactly one of the
two variants: in the success variant error is null while data and
dataAsBuffer are both non-null; in the failure variant data and
dataAsBuffer are both null while error is non-null (its code a machine
integer by the ExecUtilsError shape); never both populated, never
neither. -/
theorem result_exactly_one_variant (o : SpawnOpts) (d : String → List Nat → String)
    (sf : Option JSVal) (ev : List SpawnEvent) (t : SpawnTerminal)
    (o2 : SpawnOpts) (d2 : String → List Nat → String) (sf2 : Option JSVal)
    (ev2 : List SpawnEvent) (st2 : SpawnTerminal) (et2 : ExecTerminal) :
    exactlyOneVariant (spawn o d sf ev t) ∧
    exactlyOneVariant (exec o2 d2 sf2 ev2 st2 et2) :=
  ⟨spawn_variant o d sf ev t, exec_variant o2 d2 sf2 ev2 st2 et2⟩

/-- Claim C6: the cancellation latch is first-wins: triggering an already
recorded latch with any second (possibly different) reason is a no-op, and
once a reason is recorded no later spawn event, no input-feeder action and
no latch transition of exec's no-input branch ever overwrites it, so at
most one reason is ever recorded. -/
theorem cancellation_first_wins (o : SpawnOpts) (r r2 : JSVal) (st : SpawnState)
    (ev : List SpawnEvent) (acts : List InputAction)
    (h : st.latch = some r) :
    triggerAbort (some r) r2 = some r ∧
    (ev.foldl (stepEvent o) st).latch = some r ∧
    (acts.foldl applyInputAction st).latch = some r ∧
    ev.foldl (execStep o) (some r) = some r :=
  ⟨rfl, foldl_stepEvent_latch_some o ev st r h,
    foldl_applyInputAction_latch_some acts st r h,
    foldl_execStep_latch_some o ev (some r) r rfl⟩

theorem cancellation_first_wins_witness :
    triggerAbort (some (JSVal.errorVal ("first"))) (JSVal.errorVal ("second")) =
      some (JSVal.errorVal ("first")) ∧
    (([SpawnEvent.timeoutFire,
        SpawnEvent.externalAbort (JSVal.errorVal ("second"))]).foldl (stepEvent optsT)
        { initialSpawnState with latch := some (JSVal.errorVal ("first")) }).latch =
      some (JSVal.errorVal ("first")) := by
  have h := cancellation_first_wins optsT (JSVal.errorVal ("first")) (JSVal.errorVal ("second"))
    { initialSpawnState with latch := some (JSVal.errorVal ("first")) }
    [SpawnEvent.timeoutFire, SpawnEvent.externalAbort (JSVal.errorVal ("second"))] [] rfl
  exact ⟨h.1, h.2.1⟩

/-- Claim C7 (counterexample): the claim quotes the cancellation reason
"timed out after Nms"; the code records "Command timed out after Nms".
With timeout 5000 the recorded reason message is "Command timed out after
5000ms", which differs from the quoted string. -/
theorem timeout_reason_counterexample :
    (spawnStateAfter optsT none [SpawnEvent.timeoutFire]).latch =
      some (JSVal.errorVal ("Command timed out after 5000ms")) ∧
    ("Command timed out after 5000ms" ≠ "timed out after 5000ms") := by
  refine ⟨by decide, by decide⟩

/-- Claim C7 (amended): for either runner, with a configured timeout of n
ms (n nonzero, so the timer exists) and no cancellation recorded before the
timer fires, the expiry triggers cancellation with reason "Command timed
out after nms", and the call resolves with the failure variant, error code
-1, and an error message containing the configured timeout value: for
spawn once the child closes, and for exec's no-input branch whatever the
buffering host then does (resolve or reject); exec with input delegates to
spawn. -/
theorem timeout_behavior_amended (o : SpawnOpts) (d : String → List Nat → String)
    (sf : Option JSVal) (ev1 ev2 : List SpawnEvent) (n : Nat) (c : Int)
    (o2 : SpawnOpts) (d2 : String → List Nat → String) (sf2 : Option JSVal)
    (ev3 ev4 : List SpawnEvent) (st2 : SpawnTerminal) (et2 : ExecTerminal)
    (ht : o.timeout = n) (hn : n ≠ 0)
    (hl : (spawnStateAfter o sf ev1).latch = none) :
    spawn o d sf (ev1 ++ SpawnEvent.timeoutFire :: ev2) (SpawnTerminal.closed c) =
      { data := none, dataAsBuffer := none,
        error := some { message := "Command timed out after " ++ toString n ++ "ms", code := -1 },
        code := -1 } ∧
    (o2.input = none → o2.timeout = n → ev3.foldl (execStep o2) none = none →
      exec o2 d2 sf2 (ev3 ++ SpawnEvent.timeoutFire :: ev4) st2 et2 =
        { data := none, dataAsBuffer := none,
          error := some { message := "Command timed out after " ++ toString n ++ "ms", code := -1 },
          code := -1 }) ∧
    (∃ pre post, "Command timed out after " ++ toString n ++ "ms" = pre ++ toString n ++ post) := by
  have hstep : (stepEvent o (spawnStateAfter o sf ev1) SpawnEvent.timeoutFire).latch =
      some (timeoutReason n) := by
    subst ht
    simp only [stepEvent, if_pos hn, hl, triggerAbort]
  have hfold : (spawnStateAfter o sf (ev1 ++ SpawnEvent.timeoutFire :: ev2)).latch =
      some (timeoutReason n) := by
    rw [spawnStateAfter_append]
    simp only [List.foldl_cons]
    exact foldl_stepEvent_latch_some o ev2 _ _ hstep
  refine ⟨?_, ?_, ?_⟩
  · simp [spawn, finishSpawn, hfold, createErrorResult, timeoutReason]
  · intro hi2 ht2 hl2
    have hstep2 : execStep o2 (ev3.foldl (execStep o2) none) SpawnEvent.timeoutFire =
        some (timeoutReason n) := by
      simp only [execStep, ht2, hl2, triggerAbort]
      rw [if_pos hn]
    have hfold2 : (ev3 ++ SpawnEvent.timeoutFire :: ev4).foldl (execStep o2) none =
        some (timeoutReason n) := by
      rw [List.foldl_append]
      simp only [List.foldl_cons]
      exact foldl_execStep_latch_some o2 ev4 _ _ hstep2
    unfold exec
    rw [hi2]
    cases et2 with
    | resolved b =>
      rw [hfold2]
      simp [createErrorResult, timeoutReason]
    | rejected e =>
      rw [hfold2]
      cases e <;> simp [createErrorResult, timeoutReason]
  · exact ⟨"Command timed out after ", "ms", rfl⟩

theorem timeout_behavior_amended_witness :
    spawn optsT decA none [SpawnEvent.timeoutFire] (SpawnTerminal.closed 0) =
      { data := none, dataAsBuffer := none,
        error := some { message := "Command timed out after 5000ms", code := -1 }, code := -1 } ∧
    exec optsT decA none [SpawnEvent.timeoutFire] (SpawnTerminal.closed 0)
        (ExecTerminal.resolved []) =
      { data := none, dataAsBuffer := none,
        error := some { message := "Command timed out after 5000ms", code := -1 }, code := -1 } := by
  have h := timeout_behavior_amended optsT decA none [] [] 5000 0 optsT decA none [] []
    (SpawnTerminal.closed 0) (ExecTerminal.resolved []) rfl (by decide) (by decide)
  exact ⟨h.1, h.2.1 rfl rfl rfl⟩

/-- Claim C8 (counterexample): the claim quotes the reasons "failed to
write to stdin: <message>" and "input stream error: <message>"; the code
capitalizes both.  A synchronous EPIPE failure while writing a string
payload ends stdin and aborts with reason "Failed to write to stdin:
EPIPE", and a source-stream error aborts with reason "Input stream error:
disk error", neither being the quoted lowercase string. -/
theorem stdin_failure_reason_counterexample :
    handleInput true (some (Input.str ("hi"))) (some (JSVal.errorVal ("EPIPE"))) =
      ([InputAction.stdinEnd,
        InputAction.abortWith (JSVal.errorVal ("Failed to write to stdin: EPIPE"))], false) ∧
    ("Failed to write to stdin: EPIPE" ≠ "failed to write to stdin: EPIPE") ∧
    onInputStreamError ("disk error") =
      [InputAction.abortWith (JSVal.errorVal ("Input stream error: disk error"))] ∧
    ("Input stream error: disk error" ≠ "input stream error: disk error") := by
  refine ⟨by decide, by decide, by decide, by decide⟩

/-- Claim C8 (amended): the input feeder never lets an exception escape its
boundary: for every payload, stdin state and failure it reports no throw;
any synchronous write/close failure is caught, the child's stdin is ended
first and cancellation is then triggered with reason "Failed to write to
stdin: <message>" (err.message for Error values, String(err) otherwise);
for a stream payload, a source-stream error triggers cancellation with
reason "Input stream error: <message>" instead of throwing. -/
theorem input_feeder_no_throw_amended (sp : Bool) (oi : Option Input)
    (sf : Option JSVal) (inp : Input) (e : JSVal) (m : String) :
    (handleInput sp oi sf).snd = false ∧
    handleInput true (some inp) (some e) =
      ([InputAction.stdinEnd,
        InputAction.abortWith
          (JSVal.errorVal ("Failed to write to stdin: " ++ jsMessageOrString e))],
        false) ∧
    onInputStreamError m =
      [InputAction.abortWith (JSVal.errorVal ("Input stream error: " ++ m))] := by
  refine ⟨?_, rfl, rfl⟩
  rcases oi with _ | i
  · rfl
  · cases sp
    · rfl
    · rcases sf with _ | f
      · cases i <;> rfl
      · rfl

/-- Claim C9: spawn strips its recognized options timeout, maxBuffer,
encoding and input from the copy handed to the process host, and every key
outside the recognized set (which additionally includes signal) passes
through to the host verbatim. -/
theorem spawn_option_stripping (α : Type) (options : String → Option α) (k : String)
    (hk : k ≠ "timeout" ∧ k ≠ "maxBuffer" ∧ k ≠ "encoding" ∧ k ≠ "input" ∧ k ≠ "signal") :
    (spawnOptionsPrep options).snd ("timeout") = none ∧
    (spawnOptionsPrep options).snd ("maxBuffer") = none ∧
    (spawnOptionsPrep options).snd ("encoding") = none ∧
    (spawnOptionsPrep options).snd ("input") = none ∧
    (spawnOptionsPrep options).snd k = options k := by
  obtain ⟨h1, h2, h3, h4, _⟩ := hk
  refine ⟨?_, ?_, ?_, ?_, ?_⟩ <;>
    simp [spawnOptionsPrep, deleteKey, h1, h2, h3, h4]

theorem spawn_option_stripping_witness :
    (spawnOptionsPrep (fun _ => some 1)).snd ("cwd") = some 1 :=
  (spawn_option_stripping Nat (fun _ => some 1) ("cwd")
    ⟨by decide, by decide, by decide, by decide, by decide⟩).2.2.2.2

/-- Claim C10: neither spawn nor exec mutates the caller-supplied options
object: the recognized options are deleted (or overridden) only on the
shallow copy handed to the host, so the caller's own map comes back
unchanged and in particular still holds timeout, maxBuffer, encoding,
signal and input exactly as passed. -/
theorem options_not_mutated (α : Type) (options : String → Option α)
    (bufferEncoding maxBufferVal shellVal : α) :
    (spawnOptionsPrep options).fst = options ∧
    (execOptionsPrep options bufferEncoding maxBufferVal).fst = options ∧
    (execDelegateOptionsPrep options shellVal).fst = options ∧
    ((spawnOptionsPrep options).fst ("timeout") = options ("timeout") ∧
      (spawnOptionsPrep options).fst ("maxBuffer") = options ("maxBuffer") ∧
      (spawnOptionsPrep options).fst ("encoding") = options ("encoding") ∧
      (spawnOptionsPrep options).fst ("signal") = options ("signal") ∧
      (spawnOptionsPrep options).fst ("input") = options ("input")) ∧
    ((execOptionsPrep options bufferEncoding maxBufferVal).fst ("timeout") = options ("timeout") ∧
      (execOptionsPrep options bufferEncoding maxBufferVal).fst ("maxBuffer") = options ("maxBuffer") ∧
      (execOptionsPrep options bufferEncoding maxBufferVal).fst ("encoding") = options ("encoding") ∧
      (execOptionsPrep options bufferEncoding maxBufferVal).fst ("signal") = options ("signal") ∧
      (execOptionsPrep options bufferEncoding maxBufferVal).fst ("input") = options ("input")) :=
  ⟨rfl, rfl, rfl, ⟨rfl, rfl, rfl, rfl, rfl⟩, ⟨rfl, rfl, rfl, rfl, rfl⟩⟩

end ExecUtils
